import Mathlib

/-!
# Verification of the gio headless-rendering and pointer-input core

Shallow embedding of two source files of the repository:

* `io/pointer` (the pointer package): pointer event data model, hit-area and
  input-handler operation encoding, button sets.
* `gpu/headless/headless.go`: backend selection, headless window construction,
  release, frame submission and screenshot readback.

Go machine integers are modelled as `Int`/`Nat` with explicit reduction
modulo `2^32` where the code converts to `uint32`; Go `panic` is modelled as
an `Except.error`; the GPU backend and platform context are modelled as
oracles supplying the result of each external call, and every externally
visible action is recorded in an effect trace.
-/

set_option autoImplicit false

/-- `image.Point`: a pair of Go `int` coordinates. -/
structure Point where
  X : Int
  Y : Int
  deriving DecidableEq

/-- `image.Rectangle`: an axis-aligned rectangle `{Min, Max}`. -/
structure Rect where
  Min : Point
  Max : Point
  deriving DecidableEq

/-! ## Operation encoding (pointer package)

The pointer package writes fixed-length records into the internal operation
buffer through `ops.Write` / `ops.Write1` of `gioui.org/internal/ops`.  That
internal package is not among the provided source files, so the buffer shape
is modelled from the spec: an append-only byte sequence, plus an out-of-band
reference table to which `Write1` appends its reference argument so that
records stay fixed-length. -/

/-- An `event.Tag` is an opaque non-nil identity (Go `interface{}`);
nil-ness of a tag field is modelled by `Option Tag`. -/
abbrev Tag : Type := Nat

/-- An entry of the out-of-band reference table (`Write1`'s extra argument):
a handler tag or a string such as a cursor name. -/
inductive Ref where
  | tag (t : Tag)
  | str (s : String)
  deriving DecidableEq

/-- Modelled from the spec: the internal operation buffer (`ops.Ops`), an
append-only byte sequence `data` plus the out-of-band reference table `refs`
appended to by `Write1`. -/
structure Ops where
  data : List Nat := []
  refs : List Ref := []
  deriving DecidableEq

/-- Modelled from the spec: the opcode byte constants of the internal ops
package (`ops.TypeArea`, `ops.TypePointerInput`, `ops.TypeCursor`).  Their
numeric values are opaque one-byte codes; only distinctness matters. -/
def TypeArea : Nat := 1

/-- Modelled from the spec: opcode byte for an input-handler record. -/
def TypePointerInput : Nat := 2

/-- Modelled from the spec: opcode byte for a cursor record. -/
def TypeCursor : Nat := 3

/-- Modelled from the spec: `ops.TypeAreaLen`, the declared fixed length of
an area record: 1 opcode byte + 1 kind byte + 4×4 coordinate bytes. -/
def TypeAreaLen : Nat := 18

/-- Modelled from the spec: `ops.TypePointerInputLen`, the declared fixed
length of an input-handler record: 1 opcode byte + 1 grab byte + 1 types
byte + 4×4 coordinate bytes. -/
def TypePointerInputLen : Nat := 19

/-- Go's `uint32(x)` conversion of an `int`: reduction modulo `2^32`
(`Int.emod` is non-negative for a positive modulus). -/
def u32ofInt (x : Int) : Nat := (x % 4294967296).toNat

/-- The four bytes `binary.LittleEndian.PutUint32` writes for value `v`,
least-significant byte first. -/
def putUint32LE (v : Nat) : List Nat :=
  [v % 256, v / 256 % 256, v / 65536 % 256, v / 16777216 % 256]

/-- `bo.PutUint32(data[off:], v)`: overwrite the four bytes of `data` at
offsets `off, off+1, off+2, off+3` with the little-endian bytes of `v`. -/
def putU32At (data : List Nat) (off : Nat) (v : Nat) : List Nat :=
  ((((data.set off (v % 256)).set (off + 1) (v / 256 % 256)).set
      (off + 2) (v / 65536 % 256)).set (off + 3) (v / 16777216 % 256))

/-- `areaKind` of the pointer package (`areaRect`, `areaEllipse`). -/
inductive areaKind where
  | areaRect
  | areaEllipse
  deriving DecidableEq

/-- The byte value of an `areaKind` (Go `iota`: 0, 1). -/
def areaKind.toByte : areaKind → Nat
  | .areaRect => 0
  | .areaEllipse => 1

/-- `pointer.AreaOp`: a hit-area operation. -/
structure AreaOp where
  kind : areaKind
  rect : Rect
  deriving DecidableEq

/-- `AreaOp.add`: append one area record.  `ops.Write(&o.Internal,
ops.TypeAreaLen)` yields a fresh zeroed slice of length `TypeAreaLen`
appended to the buffer; the code then sets the opcode byte, the kind byte,
and the four rectangle coordinates as 4-byte little-endian integers at
offsets 2, 6, 10, 14. -/
def AreaOp.add (a : AreaOp) (o : Ops) : Ops :=
  let data := List.replicate TypeAreaLen 0
  let data := data.set 0 TypeArea
  let data := data.set 1 a.kind.toByte
  let data := putU32At data 2 (u32ofInt a.rect.Min.X)
  let data := putU32At data 6 (u32ofInt a.rect.Min.Y)
  let data := putU32At data 10 (u32ofInt a.rect.Max.X)
  let data := putU32At data 14 (u32ofInt a.rect.Max.Y)
  { o with data := o.data ++ data }

/-- `pointer.InputOp`: declaration of an input handler.  `Tag` is a Go
interface value, so possibly nil: `none` models a nil tag. -/
structure InputOp where
  Tag : Option Tag
  Grab : Bool
  Types : Nat
  ScrollBounds : Rect
  deriving DecidableEq

/-- `InputOp.Add`: panics (modelled as `Except.error`) when the tag is nil
or the scroll bounds do not straddle the origin; otherwise appends one
fixed-length input-handler record through `ops.Write1`, which also appends
the tag to the out-of-band reference table.  Bytes: opcode, grab flag,
types bitset, then the four scroll-bounds coordinates as 4-byte
little-endian integers at offsets 3, 7, 11, 15. -/
def InputOp.Add (op : InputOp) (o : Ops) : Except String Ops :=
  match op.Tag with
  | none => .error "Tag must be non-nil"
  | some tg =>
    if op.ScrollBounds.Min.X > 0 || op.ScrollBounds.Max.X < 0 ||
        op.ScrollBounds.Min.Y > 0 || op.ScrollBounds.Max.Y < 0 then
      .error "invalid scroll range value"
    else
      let data := List.replicate TypePointerInputLen 0
      let data := data.set 0 TypePointerInput
      let data := if op.Grab then data.set 1 1 else data
      let data := data.set 2 op.Types
      let data := putU32At data 3 (u32ofInt op.ScrollBounds.Min.X)
      let data := putU32At data 7 (u32ofInt op.ScrollBounds.Min.Y)
      let data := putU32At data 11 (u32ofInt op.ScrollBounds.Max.X)
      let data := putU32At data 15 (u32ofInt op.ScrollBounds.Max.Y)
      .ok { data := o.data ++ data, refs := o.refs ++ [Ref.tag tg] }

/-- Whether an `Except` result is an error (a Go panic in this model). -/
def Except.isErr {ε α : Type} : Except ε α → Bool
  | .error _ => true
  | .ok _ => false

/-- Modelled from the spec: the event router (not among the provided source
files) clamps the delivered scroll amount per axis to the handler's declared
scroll bounds before dispatching a Scroll event. -/
def clampScroll (bounds : Rect) (scroll : Point) : Point :=
  ⟨max bounds.Min.X (min scroll.X bounds.Max.X),
   max bounds.Min.Y (min scroll.Y bounds.Max.Y)⟩

/-- `pointer.Buttons`: a `uint8` bitset of mouse buttons.  Only `&&&` and
`==` are applied to it, on which `uint8` and `Nat` semantics agree. -/
abbrev Buttons : Type := Nat

/-- `Buttons.Contain`: `b&buttons == buttons`. -/
def Buttons.Contain (b buttons : Buttons) : Bool :=
  (b : Nat) &&& buttons == buttons

/-! ## Backend selection (`gpu/headless/headless.go`) -/

/-- A platform context handle (the `context` interface value), opaque. -/
abbrev Ctx : Type := Nat

/-- A context-construction strategy slot (`newContextPrimary` /
`newContextFallback`): `none` models a nil function variable, `some r` a
configured strategy whose single invocation returns `r`. -/
def Strategy : Type := Option (Except String Ctx)

/-- The loop body of `newContext`: walk the strategy list in order carrying
`firstErr`, skip nil entries, return the first success; when exhausted,
return `firstErr` if any strategy failed, else the distinct
"no available GPU backends" error. -/
def newContextList : List Strategy → Option String → Except String Ctx
  | [], some e => .error e
  | [], none => .error "x11: no available GPU backends"
  | none :: rest, firstErr => newContextList rest firstErr
  | some (.error e) :: rest, firstErr =>
      newContextList rest (match firstErr with | none => some e | some e0 => some e0)
  | some (.ok c) :: _, _ => .ok c

/-- `newContext`: try the primary then the fallback strategy. -/
def newContext (primary fallback : Strategy) : Except String Ctx :=
  newContextList [primary, fallback] none

/-! ## Headless window (`gpu/headless/headless.go`)

The driver device, the gpu renderer, the offscreen texture and the readback
image are opaque handles; a `Backend` oracle supplies the result of each
external call, and every externally visible action is recorded in an `Eff`
trace.  A Go panic (method call on a nil interface) is an `Except.error
GoPanic`. -/

/-- A `driver.Device` handle, opaque. -/
abbrev Device : Type := Nat

/-- A `gpu.GPU` renderer handle, opaque. -/
abbrev GPU : Type := Nat

/-- A `driver.Texture` handle, opaque. -/
abbrev Texture : Type := Nat

/-- An `*image.RGBA` readback bitmap, opaque. -/
abbrev Image : Type := Nat

/-- An `*op.Ops` frame operation buffer, opaque to the headless package. -/
abbrev FrameBuf : Type := Nat

/-- `color.NRGBA`: four `uint8` channels; the zero value `color.NRGBA{}` is
transparent black. -/
structure NRGBA where
  R : Nat
  G : Nat
  B : Nat
  A : Nat
  deriving DecidableEq

/-- One externally visible action of the headless window code. -/
inductive Eff where
  | makeCurrent
  | releaseCurrent
  | newDevice
  | newTexture (width height : Int)
  | gpuNew
  | clear (c : NRGBA)
  | gpuFrame (buf : FrameBuf) (tex : Option Texture) (size : Point)
  | downloadImage (dev : Option Device) (tex : Option Texture) (r : Rect)
  | releaseTex (t : Texture)
  | releaseGpu (g : GPU)
  | releaseDev (d : Device)
  | releaseCtx (c : Ctx)
  deriving DecidableEq

/-- A Go runtime panic reachable in the modelled code: a method call on a
nil interface value. -/
inductive GoPanic where
  | nilContext
  | nilGpu
  deriving DecidableEq

/-- Oracle for the results of the external calls the headless window makes:
`ctx.MakeCurrent`, `driver.NewDevice`, `dev.NewTexture`, `gpu.New`,
`gpu.Frame` and `driver.DownloadImage`. -/
structure Backend where
  makeCurrent : Except String Unit
  newDevice : Except String Device
  newTexture : Except String Texture
  gpuNew : Except String GPU
  frameErr : Option String
  download : Except String Image

/-- `headless.Window`: size plus the four owned resource fields, each of
which the Go code may hold as nil (`none`). -/
structure Window where
  size : Point
  ctx : Option Ctx
  dev : Option Device
  gpu : Option GPU
  fboTex : Option Texture
  deriving DecidableEq

/-- The non-nil-context path of `contextDo`: run `MakeCurrent`; on failure
report its error without running `f` (and without `ReleaseCurrent`);
otherwise run `f`, then `ReleaseCurrent`, and report `f`'s error.  `a0` is
the state when `f` never runs; `f` may itself panic. -/
def contextDoRun {α : Type} (mc : Except String Unit) (a0 : α)
    (f : Unit → Except GoPanic (α × List Eff × Option String)) :
    Except GoPanic (α × List Eff × Option String) :=
  match mc with
  | .error e => .ok (a0, [Eff.makeCurrent], some e)
  | .ok _ =>
    match f () with
    | .error p => .error p
    | .ok (a, t, r) => .ok (a, Eff.makeCurrent :: (t ++ [Eff.releaseCurrent]), r)

/-- `contextDo(ctx, f)`: the dedicated worker calls `ctx.MakeCurrent()`,
which panics when `ctx` is a nil interface value. -/
def contextDo {α : Type} (ctx : Option Ctx) (mc : Except String Unit) (a0 : α)
    (f : Unit → Except GoPanic (α × List Eff × Option String)) :
    Except GoPanic (α × List Eff × Option String) :=
  match ctx with
  | none => .error GoPanic.nilContext
  | some _ => contextDoRun mc a0 f

/-- `headless.NewWindow(width, height)`: obtain a context via `newContext`,
then inside `contextDo` create the device, the offscreen texture and the
gpu renderer, storing them in the window only when all three succeed.  The
texture-failure branch is translated exactly as written: it returns `nil`
(no error) and releases nothing.  The renderer-failure branch releases the
texture then the device and returns the error.  On a non-nil error from
`contextDo`, the context is released and the error returned. -/
def NewWindow (width height : Int) (primary fallback : Strategy) (B : Backend) :
    List Eff × Except String Window :=
  match newContext primary fallback with
  | .error e => ([], .error e)
  | .ok c =>
    let w0 : Window :=
      { size := ⟨width, height⟩, ctx := some c, dev := none, gpu := none, fboTex := none }
    let inner : Unit → Except GoPanic (Window × List Eff × Option String) := fun _ =>
      match B.newDevice with
      | .error e => .ok (w0, [Eff.newDevice], some e)
      | .ok dev =>
        match B.newTexture with
        | .error _ => .ok (w0, [Eff.newDevice, Eff.newTexture width height], none)
        | .ok fboTex =>
          match B.gpuNew with
          | .error e =>
            .ok (w0, [Eff.newDevice, Eff.newTexture width height, Eff.gpuNew,
                      Eff.releaseTex fboTex, Eff.releaseDev dev], some e)
          | .ok gp =>
            .ok ({ w0 with fboTex := some fboTex, gpu := some gp, dev := some dev },
                 [Eff.newDevice, Eff.newTexture width height, Eff.gpuNew], none)
    match contextDoRun B.makeCurrent w0 inner with
    | .error _ => ([], .error "unreachable: inner never panics")
    | .ok (w, t, r) =>
      match r with
      | some e => (t ++ [Eff.releaseCtx c], .error e)
      | none => (t, .ok w)

/-- The body of the closure `Window.Release` passes to `contextDo`: release
the texture, the renderer and the device, each only if non-nil and nulled
out afterwards; always returns a nil error. -/
def releaseInner (w : Window) : Window × List Eff × Option String :=
  let (w, t1) :=
    match w.fboTex with
    | some t => ({ w with fboTex := none }, [Eff.releaseTex t])
    | none => (w, [])
  let (w, t2) :=
    match w.gpu with
    | some g => ({ w with gpu := none }, [Eff.releaseGpu g])
    | none => (w, [])
  let (w, t3) :=
    match w.dev with
    | some d => ({ w with dev := none }, [Eff.releaseDev d])
    | none => (w, [])
  (w, t1 ++ t2 ++ t3, none)

/-- `Window.Release`: run `releaseInner` under `contextDo` (whose error, if
any, is discarded), then release the context itself if non-nil and null it
out. -/
def Window.Release (w : Window) (B : Backend) : Except GoPanic (Window × List Eff) :=
  match contextDo w.ctx B.makeCurrent w (fun _ => .ok (releaseInner w)) with
  | .error p => .error p
  | .ok (w1, t, _) =>
    match w1.ctx with
    | some c => .ok ({ w1 with ctx := none }, t ++ [Eff.releaseCtx c])
    | none => .ok (w1, t)

/-- `Window.Frame(frame)`: under `contextDo`, clear the texture to the zero
color `color.NRGBA{}` (transparent black), then submit the buffer to the
renderer targeting `w.fboTex` and `w.size`, returning the submission's
error.  `w.gpu.Clear` on a nil renderer panics. -/
def Window.Frame (w : Window) (B : Backend) (frame : FrameBuf) :
    Except GoPanic (Window × List Eff × Option String) :=
  contextDo w.ctx B.makeCurrent w (fun _ =>
    match w.gpu with
    | none => .error GoPanic.nilGpu
    | some _ =>
      .ok (w, [Eff.clear ⟨0, 0, 0, 0⟩, Eff.gpuFrame frame w.fboTex w.size], B.frameErr))

/-- `Window.Screenshot()`: under `contextDo`, read back the region
`image.Rectangle{Max: w.size}` (that is, `[(0,0), w.size)`) via
`driver.DownloadImage(w.dev, w.fboTex, ...)` into `img`; if the `contextDo`
call reports an error, return `(nil, err)`, otherwise `(img, nil)`. -/
def Window.Screenshot (w : Window) (B : Backend) :
    Except GoPanic (Window × Option Image × List Eff × Option String) :=
  match contextDo w.ctx B.makeCurrent (w, (none : Option Image)) (fun _ =>
      match B.download with
      | .ok im =>
        .ok ((w, some im),
             [Eff.downloadImage w.dev w.fboTex ⟨⟨0, 0⟩, w.size⟩], none)
      | .error e =>
        .ok ((w, none),
             [Eff.downloadImage w.dev w.fboTex ⟨⟨0, 0⟩, w.size⟩], some e)) with
  | .error p => .error p
  | .ok ((w1, img), t, r) =>
    match r with
    | some e => .ok (w1, none, t, some e)
    | none => .ok (w1, img, t, none)

/-! ## Theorems -/

/-- Claim C3: `newContext` tries the primary then the fallback strategy in
order, skipping a strategy that is nil, and returns the first successfully
constructed context; if every configured strategy fails it returns the error
of the earliest failed strategy; if no strategy is configured it returns the
distinct "x11: no available GPU backends" error. -/
theorem newContext_order_and_errors (primary fallback : Strategy) :
    newContext primary fallback =
      match primary, fallback with
      | some (.ok c), _ => .ok c
      | none, some (.ok c) => .ok c
      | some (.error _), some (.ok c) => .ok c
      | some (.error e), some (.error _) => .error e
      | some (.error e), none => .error e
      | none, some (.error e) => .error e
      | none, none => .error "x11: no available GPU backends" := by
  cases primary with
  | none =>
    cases fallback with
    | none => rfl
    | some r => cases r <;> rfl
  | some r =>
    cases r with
    | ok c => rfl
    | error e =>
      cases fallback with
      | none => rfl
      | some r2 => cases r2 <;> rfl

/-- Claim C10: `Buttons.Contain b buttons` is true exactly when every button
bit set in `buttons` is also set in `b`; in particular every set contains
the empty set and itself. -/
theorem Buttons_Contain_iff (b buttons : Buttons) :
    (Buttons.Contain b buttons = true ↔
        ∀ i, buttons.testBit i = true → b.testBit i = true) ∧
      Buttons.Contain b 0 = true ∧ Buttons.Contain b b = true := by
  have key : ∀ x y : Buttons,
      Buttons.Contain x y = true ↔ ∀ i, y.testBit i = true → x.testBit i = true := by
    intro x y
    unfold Buttons.Contain
    rw [beq_iff_eq]
    constructor
    · intro h i hi
      have hbit := congrArg (fun n => Nat.testBit n i) h
      simp only [Nat.testBit_land, hi, Bool.and_true] at hbit
      exact hbit
    · intro h
      apply Nat.eq_of_testBit_eq
      intro i
      rw [Nat.testBit_land]
      cases hyi : y.testBit i with
      | false => simp
      | true => simp [h i hyi]
  refine ⟨key b buttons, ?_, ?_⟩
  · rw [key b 0]
    intro i hi
    simp [Nat.zero_testBit] at hi
  · rw [key b b]
    intro i hi
    exact hi

/-- Claim C4: `InputOp.Add` fails (panics) if and only if the tag is nil or
the scroll-bounds rectangle does not straddle the origin on both axes; in
particular bounds `{Min:(1,0), Max:(5,5)}` fail with a non-nil tag, and a
non-nil tag with origin-straddling bounds succeeds. -/
theorem InputOp_Add_fails_iff :
    (∀ (op : InputOp) (o : Ops),
        (op.Add o).isErr = true ↔
          (op.Tag = none ∨ op.ScrollBounds.Min.X > 0 ∨ op.ScrollBounds.Max.X < 0 ∨
            op.ScrollBounds.Min.Y > 0 ∨ op.ScrollBounds.Max.Y < 0)) ∧
      (InputOp.Add ⟨some 1, false, 0, ⟨⟨1, 0⟩, ⟨5, 5⟩⟩⟩ {}).isErr = true ∧
      (InputOp.Add ⟨some 1, false, 0, ⟨⟨-1, -1⟩, ⟨1, 1⟩⟩⟩ {}).isErr = false := by
  refine ⟨?_, by decide, by decide⟩
  intro op o
  cases htag : op.Tag with
  | none => simp [InputOp.Add, htag, Except.isErr]
  | some tg =>
    simp only [InputOp.Add, htag]
    split
    · next hcond =>
      simp only [Except.isErr, true_iff]
      simp only [Bool.or_eq_true, decide_eq_true_eq] at hcond
      tauto
    · next hcond =>
      simp only [Except.isErr, Bool.false_eq_true, false_iff]
      simp only [Bool.or_eq_true, decide_eq_true_eq] at hcond
      push_neg at hcond
      obtain ⟨⟨⟨h1, h2⟩, h3⟩, h4⟩ := hcond
      intro hcontra
      rcases hcontra with h | h | h | h | h
      · simp at h
      · omega
      · omega
      · omega
      · omega

/-- Claim C6: every area record and every input-handler record is a one-byte
opcode followed by a fixed-length payload; each rectangle coordinate is a
4-byte little-endian integer written in the order Min.X, Min.Y, Max.X,
Max.Y; the string-valued payload (the handler tag) is stored through the
out-of-band reference table rather than inline, so every record of a given
opcode has the same length. -/
theorem record_layout_fixed :
    (∀ (a : AreaOp) (o : Ops),
        a.add o =
          { data := o.data ++
              ([TypeArea, a.kind.toByte] ++ putUint32LE (u32ofInt a.rect.Min.X) ++
                putUint32LE (u32ofInt a.rect.Min.Y) ++ putUint32LE (u32ofInt a.rect.Max.X) ++
                putUint32LE (u32ofInt a.rect.Max.Y)),
            refs := o.refs } ∧
          (a.add o).data.length = o.data.length + TypeAreaLen) ∧
      (∀ (op : InputOp) (o : Ops) (tg : Tag), op.Tag = some tg →
        op.ScrollBounds.Min.X ≤ 0 → 0 ≤ op.ScrollBounds.Max.X →
        op.ScrollBounds.Min.Y ≤ 0 → 0 ≤ op.ScrollBounds.Max.Y →
        op.Add o =
          .ok { data := o.data ++
                  ([TypePointerInput, if op.Grab then 1 else 0, op.Types] ++
                    putUint32LE (u32ofInt op.ScrollBounds.Min.X) ++
                    putUint32LE (u32ofInt op.ScrollBounds.Min.Y) ++
                    putUint32LE (u32ofInt op.ScrollBounds.Max.X) ++
                    putUint32LE (u32ofInt op.ScrollBounds.Max.Y)),
                refs := o.refs ++ [Ref.tag tg] } ∧
          (o.data ++
              ([TypePointerInput, if op.Grab then 1 else 0, op.Types] ++
                putUint32LE (u32ofInt op.ScrollBounds.Min.X) ++
                putUint32LE (u32ofInt op.ScrollBounds.Min.Y) ++
                putUint32LE (u32ofInt op.ScrollBounds.Max.X) ++
                putUint32LE (u32ofInt op.ScrollBounds.Max.Y))).length =
            o.data.length + TypePointerInputLen) := by
  constructor
  · intro a o
    have hrec : a.add o =
        { data := o.data ++
            ([TypeArea, a.kind.toByte] ++ putUint32LE (u32ofInt a.rect.Min.X) ++
              putUint32LE (u32ofInt a.rect.Min.Y) ++ putUint32LE (u32ofInt a.rect.Max.X) ++
              putUint32LE (u32ofInt a.rect.Max.Y)),
          refs := o.refs } := by
      simp [AreaOp.add, putU32At, putUint32LE, TypeAreaLen, TypeArea, List.replicate]
    refine ⟨hrec, ?_⟩
    rw [hrec]
    simp [putUint32LE, TypeAreaLen]
  · intro op o tg htag h1 h2 h3 h4
    have hc : (decide (op.ScrollBounds.Min.X > 0) || decide (op.ScrollBounds.Max.X < 0) ||
        decide (op.ScrollBounds.Min.Y > 0) || decide (op.ScrollBounds.Max.Y < 0)) = false := by
      simp only [Bool.or_eq_false_iff, decide_eq_false_iff_not, not_lt]
      exact ⟨⟨⟨h1, h2⟩, h3⟩, h4⟩
    constructor
    · cases hg : op.Grab <;>
        simp [InputOp.Add, htag, hc, hg, putU32At, putUint32LE, TypePointerInputLen,
          TypePointerInput, List.replicate]
    · simp [putUint32LE, TypePointerInputLen]

/-- Witness for `record_layout_fixed` at a concrete input handler. -/
theorem record_layout_fixed_witness :
    InputOp.Add ⟨some 5, true, 3, ⟨⟨-2, 0⟩, ⟨4, 6⟩⟩⟩ {} =
        .ok { data := ({} : Ops).data ++
                ([TypePointerInput, if (true : Bool) then 1 else 0, 3] ++
                  putUint32LE (u32ofInt (-2)) ++ putUint32LE (u32ofInt 0) ++
                  putUint32LE (u32ofInt 4) ++ putUint32LE (u32ofInt 6)),
              refs := ({} : Ops).refs ++ [Ref.tag 5] } ∧
      (({} : Ops).data ++
          ([TypePointerInput, if (true : Bool) then 1 else 0, 3] ++
            putUint32LE (u32ofInt (-2)) ++ putUint32LE (u32ofInt 0) ++
            putUint32LE (u32ofInt 4) ++ putUint32LE (u32ofInt 6))).length =
        ({} : Ops).data.length + TypePointerInputLen :=
  record_layout_fixed.2 ⟨some 5, true, 3, ⟨⟨-2, 0⟩, ⟨4, 6⟩⟩⟩ {} 5 rfl
    (by decide) (by decide) (by decide) (by decide)

/-- Claim C5: for every handler declared by a successful `InputOp.Add` and
every scroll amount, the clamped scroll delivered with a Scroll event lies
within the handler's declared scroll bounds on both axes. -/
theorem scroll_clamped_to_bounds (op : InputOp) (o o' : Ops) (s : Point)
    (h : op.Add o = .ok o') :
    op.ScrollBounds.Min.X ≤ (clampScroll op.ScrollBounds s).X ∧
      (clampScroll op.ScrollBounds s).X ≤ op.ScrollBounds.Max.X ∧
      op.ScrollBounds.Min.Y ≤ (clampScroll op.ScrollBounds s).Y ∧
      (clampScroll op.ScrollBounds s).Y ≤ op.ScrollBounds.Max.Y := by
  have hv : op.ScrollBounds.Min.X ≤ 0 ∧ 0 ≤ op.ScrollBounds.Max.X ∧
      op.ScrollBounds.Min.Y ≤ 0 ∧ 0 ≤ op.ScrollBounds.Max.Y := by
    cases htag : op.Tag with
    | none => simp [InputOp.Add, htag] at h
    | some tg =>
      simp only [InputOp.Add, htag] at h
      split at h
      · next hcond => simp at h
      · next hcond =>
        simp only [Bool.or_eq_true, decide_eq_true_eq] at hcond
        push_neg at hcond
        exact ⟨hcond.1.1.1, hcond.1.1.2, hcond.1.2, hcond.2⟩
  obtain ⟨h1, h2, h3, h4⟩ := hv
  simp only [clampScroll]
  exact ⟨le_max_left _ _, max_le (h1.trans h2) (min_le_right _ _),
    le_max_left _ _, max_le (h3.trans h4) (min_le_right _ _)⟩

/-- Witness for `scroll_clamped_to_bounds` at a concrete handler and a
scroll amount outside the bounds on both axes. -/
theorem scroll_clamped_to_bounds_witness :
    (-2 : Int) ≤ (clampScroll ⟨⟨-2, 0⟩, ⟨4, 6⟩⟩ ⟨10, -7⟩).X ∧
      (clampScroll ⟨⟨-2, 0⟩, ⟨4, 6⟩⟩ ⟨10, -7⟩).X ≤ 4 ∧
      (0 : Int) ≤ (clampScroll ⟨⟨-2, 0⟩, ⟨4, 6⟩⟩ ⟨10, -7⟩).Y ∧
      (clampScroll ⟨⟨-2, 0⟩, ⟨4, 6⟩⟩ ⟨10, -7⟩).Y ≤ 6 :=
  scroll_clamped_to_bounds ⟨some 5, true, 3, ⟨⟨-2, 0⟩, ⟨4, 6⟩⟩⟩ {}
    { data := [2, 1, 3, 254, 255, 255, 255, 0, 0, 0, 0, 4, 0, 0, 0, 6, 0, 0, 0],
      refs := [Ref.tag 5] } ⟨10, -7⟩ rfl

/-- Whether an effect releases an owned resource (texture, renderer, device
or context); activating/deactivating the context is not a release. -/
def Eff.isResourceRelease : Eff → Bool
  | .releaseTex _ => true
  | .releaseGpu _ => true
  | .releaseDev _ => true
  | .releaseCtx _ => true
  | _ => false

/-- A backend whose texture creation fails while everything else succeeds. -/
def texFailBackend : Backend :=
  { makeCurrent := .ok (), newDevice := .ok 7, newTexture := .error "headless: no texture",
    gpuNew := .ok 11, frameErr := none, download := .ok 21 }

/-- A backend on which every external call succeeds. -/
def okBackend : Backend :=
  { makeCurrent := .ok (), newDevice := .ok 7, newTexture := .ok 9,
    gpuNew := .ok 11, frameErr := none, download := .ok 21 }

/-- A backend on which frame submission and readback fail while context
activation succeeds. -/
def renderFailBackend : Backend :=
  { makeCurrent := .ok (), newDevice := .ok 7, newTexture := .ok 9,
    gpuNew := .ok 11, frameErr := some "gpu: frame failed",
    download := .error "driver: readback failed" }

/-- A fully constructed window: every owned resource present. -/
def wFull : Window :=
  { size := ⟨4, 4⟩, ctx := some 3, dev := some 7, gpu := some 11, fboTex := some 9 }

/-- A released window: every owned field nulled out. -/
def wReleased : Window :=
  { size := ⟨4, 4⟩, ctx := none, dev := none, gpu := none, fboTex := none }

/-- Claim C1, evaluated at the failing input: when `dev.NewTexture` fails
(context creation, `MakeCurrent` and `driver.NewDevice` all succeeding),
`NewWindow` returns a non-nil window with nil device, renderer and texture
fields together with a nil error, and its trace releases neither the
already-created device nor the context — the texture-failure branch returns
`nil` instead of the error, contradicting the claim. -/
theorem NewWindow_texture_failure_leaks :
    NewWindow 4 4 (some (.ok 3)) none texFailBackend =
      ([Eff.makeCurrent, Eff.newDevice, Eff.newTexture 4 4, Eff.releaseCurrent],
        .ok { size := ⟨4, 4⟩, ctx := some 3, dev := none, gpu := none, fboTex := none }) ∧
      (NewWindow 4 4 (some (.ok 3)) none texFailBackend).1.all
          (fun e => !e.isResourceRelease) = true ∧
      ((NewWindow 4 4 (some (.ok 3)) none texFailBackend).2.isErr = false) :=
  ⟨rfl, by decide, rfl⟩

/-- Claim C2 counterexample: on a fully constructed window over a backend
where every call succeeds, calling `Release` a second time is not a no-op:
it panics, because `contextDo` invokes `MakeCurrent` on the now-nil context
interface. -/
theorem Release_twice_panics :
    (wFull.Release okBackend).bind (fun p => p.1.Release okBackend) =
      .error GoPanic.nilContext := rfl

/-- Claim C2 (amended): a first `Release` (with the context present and
activation succeeding) nulls out every owned field and a second `Release`
releases no resource a second time — but the second call is not a no-op: it
panics with a nil-interface method call inside `contextDo`. -/
theorem Release_second_call (w : Window) (B : Backend) (c : Ctx)
    (hc : w.ctx = some c) (hmc : B.makeCurrent = .ok ()) :
    ∀ w1 t, w.Release B = .ok (w1, t) →
      w1.ctx = none ∧ w1.dev = none ∧ w1.gpu = none ∧ w1.fboTex = none ∧
        w1.Release B = .error GoPanic.nilContext := by
  intro w1 t h
  have hinner : (releaseInner w).1.ctx = w.ctx ∧ (releaseInner w).1.dev = none ∧
      (releaseInner w).1.gpu = none ∧ (releaseInner w).1.fboTex = none := by
    rcases w with ⟨sz, ctx, dev, gpu, fbo⟩
    cases fbo <;> cases gpu <;> cases dev <;> simp [releaseInner]
  simp only [Window.Release, contextDo, contextDoRun, hc, hmc] at h
  rw [hinner.1, hc] at h
  have hw1 : w1 = { (releaseInner w).1 with ctx := none } := by
    cases h₂ : releaseInner w with
    | mk a rest =>
      rw [h₂] at h
      simp at h
      exact h.1.symm
  subst hw1
  refine ⟨rfl, hinner.2.1, hinner.2.2.1, hinner.2.2.2, ?_⟩
  simp [Window.Release, contextDo]

/-- Witness for `Release_second_call`: the fully constructed window over the
all-succeeding backend. -/
theorem Release_second_call_witness :
    wReleased.ctx = none ∧ wReleased.dev = none ∧ wReleased.gpu = none ∧
      wReleased.fboTex = none ∧
      wReleased.Release okBackend = .error GoPanic.nilContext :=
  Release_second_call wFull okBackend 3 rfl rfl wReleased
    [Eff.makeCurrent, Eff.releaseTex 9, Eff.releaseGpu 11, Eff.releaseDev 7,
      Eff.releaseCurrent, Eff.releaseCtx 3] rfl

/-- Claim C7: with the context present and activated successfully,
`Window.Frame` first clears the offscreen texture to transparent black and
then submits the buffer to the renderer targeting that texture and the
window's pixel dimensions, returning exactly the backend's submission
error. -/
theorem Frame_clears_then_submits (w : Window) (B : Backend) (frame : FrameBuf)
    (c : Ctx) (g : GPU) (hc : w.ctx = some c) (hg : w.gpu = some g)
    (hmc : B.makeCurrent = .ok ()) :
    w.Frame B frame =
      .ok (w, [Eff.makeCurrent, Eff.clear ⟨0, 0, 0, 0⟩,
               Eff.gpuFrame frame w.fboTex w.size, Eff.releaseCurrent], B.frameErr) := by
  simp [Window.Frame, contextDo, contextDoRun, hc, hg, hmc]

/-- Witness for `Frame_clears_then_submits` on the fully constructed window
over a backend whose submission fails, showing the error passed through. -/
theorem Frame_clears_then_submits_witness :
    wFull.Frame renderFailBackend 17 =
      .ok (wFull, [Eff.makeCurrent, Eff.clear ⟨0, 0, 0, 0⟩,
                   Eff.gpuFrame 17 wFull.fboTex wFull.size, Eff.releaseCurrent],
           renderFailBackend.frameErr) :=
  Frame_clears_then_submits wFull renderFailBackend 17 3 11 rfl rfl rfl

/-- Claim C8: with the context present and activated successfully,
`Window.Screenshot` reads back exactly the full texture region from `(0,0)`
to the window size; it returns the bitmap with a nil error when readback
succeeds, and a nil bitmap together with the readback error when readback
fails. -/
theorem Screenshot_full_region (w : Window) (B : Backend) (c : Ctx)
    (hc : w.ctx = some c) (hmc : B.makeCurrent = .ok ()) :
    (∀ im, B.download = .ok im →
        w.Screenshot B =
          .ok (w, some im,
            [Eff.makeCurrent, Eff.downloadImage w.dev w.fboTex ⟨⟨0, 0⟩, w.size⟩,
              Eff.releaseCurrent], none)) ∧
      (∀ e, B.download = .error e →
        w.Screenshot B =
          .ok (w, none,
            [Eff.makeCurrent, Eff.downloadImage w.dev w.fboTex ⟨⟨0, 0⟩, w.size⟩,
              Eff.releaseCurrent], some e)) := by
  constructor <;> intro x hx <;>
    simp [Window.Screenshot, contextDo, contextDoRun, hc, hmc, hx]

/-- Witness for `Screenshot_full_region` on the fully constructed window,
once over the all-succeeding backend and once over the failing one. -/
theorem Screenshot_full_region_witness :
    (wFull.Screenshot okBackend =
        .ok (wFull, some 21,
          [Eff.makeCurrent, Eff.downloadImage wFull.dev wFull.fboTex ⟨⟨0, 0⟩, wFull.size⟩,
            Eff.releaseCurrent], none)) ∧
      (wFull.Screenshot renderFailBackend =
        .ok (wFull, none,
          [Eff.makeCurrent, Eff.downloadImage wFull.dev wFull.fboTex ⟨⟨0, 0⟩, wFull.size⟩,
            Eff.releaseCurrent], some "driver: readback failed")) :=
  ⟨(Screenshot_full_region wFull okBackend 3 rfl rfl).1 21 rfl,
    (Screenshot_full_region wFull renderFailBackend 3 rfl rfl).2 "driver: readback failed" rfl⟩

/-- Claim C9: whenever `Window.Frame` or `Window.Screenshot` returns — in
particular when the call fails with a backend error — the window is
unchanged (same context, device, renderer, texture and size fields) and the
trace releases no owned resource. -/
theorem Frame_Screenshot_preserve_window (w : Window) (B : Backend) (frame : FrameBuf) :
    (∀ w1 t r, w.Frame B frame = .ok (w1, t, r) →
        w1 = w ∧ t.all (fun e => !e.isResourceRelease) = true) ∧
      (∀ w1 img t r, w.Screenshot B = .ok (w1, img, t, r) →
        w1 = w ∧ t.all (fun e => !e.isResourceRelease) = true) := by
  constructor
  · intro w1 t r h
    rcases hctx : w.ctx with _ | c <;>
      simp only [Window.Frame, contextDo, contextDoRun, hctx] at h
    · cases h
    · rcases hmc : B.makeCurrent with e | u <;> rw [hmc] at h
      · simp at h
        exact ⟨h.1.symm, by rw [← h.2.1]; rfl⟩
      · rcases hg : w.gpu with _ | g <;> rw [hg] at h
        · cases h
        · simp at h
          exact ⟨h.1.symm, by rw [← h.2.1]; rfl⟩
  · intro w1 img t r h
    rcases hctx : w.ctx with _ | c <;>
      simp only [Window.Screenshot, contextDo, contextDoRun, hctx] at h
    · cases h
    · rcases hmc : B.makeCurrent with e | u <;> rw [hmc] at h
      · simp at h
        exact ⟨h.1.symm, by rw [← h.2.2.1]; rfl⟩
      · rcases hdl : B.download with e | im <;> rw [hdl] at h <;> simp at h <;>
          exact ⟨h.1.symm, by rw [← h.2.2.1]; rfl⟩

/-- Witness for `Frame_Screenshot_preserve_window`: failing frame and
screenshot calls on the fully constructed window leave it intact. -/
theorem Frame_Screenshot_preserve_window_witness :
    (wFull = wFull ∧
        ([Eff.makeCurrent, Eff.clear ⟨0, 0, 0, 0⟩, Eff.gpuFrame 17 wFull.fboTex wFull.size,
          Eff.releaseCurrent] : List Eff).all (fun e => !e.isResourceRelease) = true) ∧
      (wFull = wFull ∧
        ([Eff.makeCurrent, Eff.downloadImage wFull.dev wFull.fboTex ⟨⟨0, 0⟩, wFull.size⟩,
          Eff.releaseCurrent] : List Eff).all (fun e => !e.isResourceRelease) = true) :=
  ⟨(Frame_Screenshot_preserve_window wFull renderFailBackend 17).1 wFull
      [Eff.makeCurrent, Eff.clear ⟨0, 0, 0, 0⟩, Eff.gpuFrame 17 wFull.fboTex wFull.size,
        Eff.releaseCurrent] (some "gpu: frame failed") rfl,
    (Frame_Screenshot_preserve_window wFull renderFailBackend 17).2 wFull none
      [Eff.makeCurrent, Eff.downloadImage wFull.dev wFull.fboTex ⟨⟨0, 0⟩, wFull.size⟩,
        Eff.releaseCurrent] (some "driver: readback failed") rfl⟩

/-- Witness for `InputOp_Add_fails_iff` at a concrete nil-tag handler. -/
theorem InputOp_Add_fails_iff_witness :
    ((InputOp.Add ⟨none, false, 0, ⟨⟨0, 0⟩, ⟨0, 0⟩⟩⟩ {}).isErr = true ↔
        ((none : Option Tag) = none ∨ (0 : Int) > 0 ∨ (0 : Int) < 0 ∨
          (0 : Int) > 0 ∨ (0 : Int) < 0)) ∧
      (InputOp.Add ⟨some 1, false, 0, ⟨⟨1, 0⟩, ⟨5, 5⟩⟩⟩ {}).isErr = true ∧
      (InputOp.Add ⟨some 1, false, 0, ⟨⟨-1, -1⟩, ⟨1, 1⟩⟩⟩ {}).isErr = false :=
  ⟨InputOp_Add_fails_iff.1 ⟨none, false, 0, ⟨⟨0, 0⟩, ⟨0, 0⟩⟩⟩ {},
    InputOp_Add_fails_iff.2.1, InputOp_Add_fails_iff.2.2⟩

/-- Witness for `Buttons_Contain_iff` at a concrete button set. -/
theorem Buttons_Contain_iff_witness :
    (Buttons.Contain 5 1 = true ↔ ∀ i, Nat.testBit 1 i = true → Nat.testBit 5 i = true) ∧
      Buttons.Contain 5 0 = true ∧ Buttons.Contain 5 5 = true :=
  Buttons_Contain_iff 5 1
